import Mathlib

/-!
# Verification of the Sharkbyte tattoo backend

Shallow embedding of the three `main.py` variants of the repository
(`src/main.py`, `src/backend/main.py`, `src/project/main.py`).

Modelling conventions:
* byte strings (Python `bytes`) are lists of naturals below 256;
* base64 text is a list of symbol codes: `0..63` for the alphabet
  characters and `64` for the padding character `=` (a bijective
  renaming of the character alphabet);
* the external PIL library is modelled abstractly: `Image.open`
  succeeds exactly on byte strings carrying a recognised signature,
  and saving an image as PNG produces such a byte string;
* Python filenames are lists of characters;
* calls to the hosted generative model are a parameter of each handler
  (a function from the content list to an `Except`, where `Except.error`
  models a raised exception).
-/

namespace Tattoo

/-- A Python `bytes` value: every element is a byte. -/
def validBytes (bs : List Nat) : Bool := bs.all (· < 256)

/-- Model of `base64.b64encode` on a byte string, producing base64 symbol codes
(0..63 for alphabet characters, 64 for the padding character). -/
def b64encode : List Nat → List Nat
  | [] => []
  | [a] => [a / 4, a % 4 * 16, 64, 64]
  | [a, b] => [a / 4, a % 4 * 16 + b / 16, b % 16 * 4, 64]
  | a :: b :: c :: rest =>
      a / 4 :: (a % 4 * 16 + b / 16) :: (b % 16 * 4 + c / 64) :: c % 64 ::
        b64encode rest

/-- Model of `base64.b64decode`: `none` models the raised `binascii.Error`
(wrong length or misplaced padding). -/
def b64decode : List Nat → Option (List Nat)
  | [] => some []
  | s1 :: s2 :: s3 :: s4 :: rest =>
      if s3 = 64 then
        if s4 = 64 ∧ rest = [] then some [s1 * 4 + s2 / 16] else none
      else if s4 = 64 then
        if rest = [] then some [s1 * 4 + s2 / 16, s2 % 16 * 16 + s3 / 4]
        else none
      else
        (b64decode rest).map
          (fun t => (s1 * 4 + s2 / 16) :: (s2 % 16 * 16 + s3 / 4) ::
            (s3 % 4 * 64 + s4) :: t)
  | _ => none

/-- Signature bytes that the modelled PIL recognises (the first four
bytes of the real PNG signature). -/
def pngSig : List Nat := [137, 80, 78, 71]

/-- Model of `PIL.Image.open(BytesIO(bs))`: succeeds exactly on byte
strings carrying the signature; the opened image is identified by its
payload bytes.  `Except.error` models the raised exception. -/
def pilOpen (bs : List Nat) : Except String (List Nat) :=
  if bs.take 4 = pngSig ∧ validBytes bs = true then .ok (bs.drop 4)
  else .error "cannot identify image file"

/-- Model of `img.save(buffer, "PNG")` followed by `buffer.getvalue()`:
re-emits the signature in front of the payload. -/
def pilSavePng (img : List Nat) : List Nat := pngSig ++ img

/-! ## Filename counter (src/project/main.py, `generate_tattoo`, lines 150-165)

Python strings are modelled as lists of characters. -/

def digitChar : Nat → Char
  | 0 => '0' | 1 => '1' | 2 => '2' | 3 => '3' | 4 => '4'
  | 5 => '5' | 6 => '6' | 7 => '7' | 8 => '8' | 9 => '9'
  | _ => '*'

def natChars (n : Nat) : List Char := ((Nat.digits 10 n).map digitChar).reverse

def charVal (c : Char) : Nat := c.toNat - 48

def parseDigits (cs : List Char) : Nat := Nat.ofDigits 10 ((cs.map charVal).reverse)

def fnHead : List Char := "generated_image".toList

def fnTail : List Char := ".png".toList

def isGenName (fn : List Char) : Bool :=
  decide (fn.take 15 = fnHead) &&
    decide ((fn.map Char.toLower).reverse.take 4 = fnTail.reverse)

def midChars (fn : List Char) : List Char :=
  (fn.drop 15).take ((fn.drop 15).length - 4)

def fileIdx (fn : List Char) : Option Nat :=
  if isGenName fn then
    let name := midChars fn
    if !name.isEmpty && name.all Char.isDigit then some (parseDigits name)
    else none
  else none

def maxIdx (files : List (List Char)) : Nat :=
  files.foldl
    (fun m fn =>
      match fileIdx fn with
      | some i => if i > m then i else m
      | none => m) 0

def nextIdx (files : List (List Char)) : Nat := maxIdx files + 1

def mkFileName (i : Nat) : List Char := fnHead ++ natChars i ++ fnTail

def genStep (files : List (List Char)) : List (List Char) :=
  files ++ [mkFileName (nextIdx files)]

def genIter : Nat → List (List Char)
  | 0 => []
  | n + 1 => genStep (genIter n)

def maxNumericSuffix (files : List (List Char)) : Nat :=
  (files.filterMap fileIdx).foldr max 0

/-! ## Model responses and response parts -/

/-- A part of a model response: `text` and `inline` model
`getattr(part, "text", None)` and `getattr(part, "inline_data", None)`
(with `inline` holding `part.inline_data.data`). -/
structure Part where
  text : Option String
  inline : Option (List Nat)
deriving DecidableEq

/-- An item of the `contents` list sent to the hosted model. -/
inductive Content where
  | text (s : String)
  | image (img : List Nat)
deriving DecidableEq

/-- A JSON value as it appears in a response body. -/
inductive JVal where
  | str (s : String)
  | b64 (b : List Nat)
  | null
deriving DecidableEq

/-- A response body: a JSON object, a rendered template (its `error`
and `result` context entries), or the `JSONResponse` class object
itself (which the alteration handler returns from its outer
`except` block). -/
inductive Body where
  | json (fields : List (String × JVal))
  | template (error : Option String) (result : Option (List (String × JVal)))
  | classObject
deriving DecidableEq

structure Response where
  status : Nat
  body : Body
deriving DecidableEq

/-- The JSON value stored under an image key. -/
def imgVal : Option (List Nat) → JVal
  | some b => .b64 b
  | none => .null

/-- Re-encoding applied to the bytes of an inline-data part: decode
with PIL and re-save as PNG, or fall back to the raw bytes. -/
def encodeImagePart (d : List Nat) : List Nat :=
  match pilOpen d with
  | .ok g => b64encode (pilSavePng g)
  | .error _ => b64encode d

/-! ## Part-processing loops -/

/-- Accumulator of the alteration handler's parts loop. -/
structure AlterAcc where
  text : String
  image : Option (List Nat)
deriving DecidableEq

/-- The `elif getattr(part, "inline_data", None)` branch of the
alteration loop (src/project/main.py lines 309-317). -/
def processInline (acc : AlterAcc) : Option (List Nat) → AlterAcc
  | some d => { acc with image := some (encodeImagePart d) }
  | none => acc

/-- One iteration of the alteration parts loop (lines 306-317):
a truthy `text` is appended, otherwise a present `inline_data` is
re-encoded. -/
def processPart (acc : AlterAcc) (p : Part) : AlterAcc :=
  match p.text with
  | some s =>
      if s.isEmpty then processInline acc p.inline
      else { acc with text := acc.text ++ s }
  | none => processInline acc p.inline

def parseParts (parts : List Part) : AlterAcc := parts.foldl processPart ⟨"", none⟩

/-- Accumulator of the generate handler's parts loop, including the
output directory it writes to. -/
structure GenAcc where
  text : String
  image : Option (List Nat)
  dir : List (List Char)
deriving DecidableEq

/-- The image branch of the generate loop (src/project/main.py lines
142-172): on a successful decode the image is saved under the next
index and re-encoded; on failure the raw bytes are base64-encoded. -/
def genProcessInline (acc : GenAcc) : Option (List Nat) → GenAcc
  | some d =>
      match pilOpen d with
      | .ok g => { acc with image := some (b64encode (pilSavePng g)),
                            dir := genStep acc.dir }
      | .error _ => { acc with image := some (b64encode d) }
  | none => acc

/-- One iteration of the generate parts loop (lines 137-172). -/
def genProcessPart (acc : GenAcc) (p : Part) : GenAcc :=
  match p.text with
  | some s =>
      if s.isEmpty then genProcessInline acc p.inline
      else { acc with text := acc.text ++ s }
  | none => genProcessInline acc p.inline

def genParseParts (dir : List (List Char)) (parts : List Part) : GenAcc :=
  parts.foldl genProcessPart ⟨"", none, dir⟩

/-! ## The substring test used for the Accept header -/

/-- Python `hay.startswith(needle)` on character lists. -/
def startsWithChars : List Char → List Char → Bool
  | _, [] => true
  | [], _ :: _ => false
  | a :: hay, b :: needle => a == b && startsWithChars hay needle

/-- Python `needle in hay` on character lists. -/
def containsChars : List Char → List Char → Bool
  | [], needle => needle.isEmpty
  | a :: t, needle => startsWithChars (a :: t) needle || containsChars t needle

/-- The test `"application/json" in request.headers.get("accept", "")`
(src/project/main.py line 177). -/
def wantsJson (accept : String) : Bool :=
  containsChars accept.toList "application/json".toList

namespace Project

/-- Inputs of one request to `POST /generate-tattoo` of
src/project/main.py, with the outcome of each fallible effect made
explicit: `photo` is the result of `await photo.read()`, `reference`
is `none` when no reference file was uploaded and otherwise carries
the result of `await reference.read()`. -/
structure GenEnv where
  photo : Except String (List Nat)
  reference : Option (Except String (List Nat))
  style : String
  theme : String
  color_mode : String
  physical_attributes : String
  accept : String

/-- The prompt lines built by `generate_tattoo`
(src/project/main.py lines 79-112). -/
def promptLines (hasRef : Bool)
    (style theme color_mode physical_attributes : String) : List String :=
  let base := [
    "You generate images of tattoos overlayed on skin of submitted images.",
    "Based on the provided input data, create a tattoo design that fits naturally on the body part shown.",
    "Input data:",
    "- Photo: An attached image of a body part (can be a hand, arm, leg, face, etc.)"]
  let withRef :=
    if hasRef then
      base ++ ["- Reference Image: An attached image that serves as the inspiration for the tattoo design. Use it as the primary reference for style/subject where appropriate."]
    else base
  let withTheme :=
    if theme.isEmpty then withRef
    else withRef ++
      [if hasRef then
        "- Theme (supplementary details for the tattoo based off the chosen reference image): " ++ theme
       else "- Theme (general description of tattoo): " ++ theme]
  let withStyle :=
    if style.isEmpty then withTheme
    else withTheme ++ ["- Style (artistic style of tattoo): " ++ style]
  let withColor :=
    if color_mode.isEmpty then withStyle
    else withStyle ++ ["- Color Mode (examples: black and white, rainbow color, monochrome, etc.): " ++ color_mode]
  let withAttrs :=
    if physical_attributes.isEmpty then withColor
    else withColor ++ ["- Physical Attributes (size/placement): " ++ physical_attributes]
  withAttrs ++ ["",
    "Do not generate any text in your response. Your response should only consist of a generated image.",
    "Do not modify the original image except to add the tattoo design."]

def buildPrompt (hasRef : Bool)
    (style theme color_mode physical_attributes : String) : String :=
  String.intercalate "\n"
    (promptLines hasRef style theme color_mode physical_attributes)

/-- The optional extra content item from the reference upload
(src/project/main.py lines 118-125): appended only when both the read
and the decode succeed; all exceptions are swallowed. -/
def refContent : Option (Except String (List Nat)) → List Content
  | none => []
  | some (.error _) => []
  | some (.ok bs) =>
      match pilOpen bs with
      | .ok img => [.image img]
      | .error _ => []

/-- The `contents` list sent to the model (lines 115-125). -/
def genContents (env : GenEnv) (userImage : List Nat) : List Content :=
  [Content.text (buildPrompt env.reference.isSome env.style env.theme
      env.color_mode env.physical_attributes),
   Content.image userImage] ++ refContent env.reference

/-- The body of the `try` block of `generate_tattoo`
(src/project/main.py lines 68-200); `Except.error` is an exception
escaping the block. -/
def genBody (env : GenEnv)
    (callModel : List Content → Except String (List Part))
    (dir : List (List Char)) : Except String (Response × List (List Char)) :=
  match env.photo with
  | .error e => .error e
  | .ok imageBytes =>
    match pilOpen imageBytes with
    | .error e => .error e
    | .ok userImage =>
      let uploaded := b64encode (pilSavePng userImage)
      match callModel (genContents env userImage) with
      | .error e => .error e
      | .ok parts =>
        let acc := genParseParts dir parts
        if wantsJson env.accept then
          .ok (⟨200, .json [("generated_text", .str acc.text),
                            ("image_base64", imgVal acc.image)]⟩, acc.dir)
        else
          .ok (⟨200, .template none (some [
            ("uploaded_image_base64", .b64 uploaded),
            ("generated_image_base64", imgVal acc.image),
            ("style", .str env.style),
            ("theme", .str env.theme),
            ("color_mode", .str env.color_mode),
            ("size", .str env.physical_attributes)])⟩, acc.dir)

/-- Handler `POST /generate-tattoo` of src/project/main.py: the `try` body
with its `except` handler (lines 202-206), which renders the template
with the error string and the framework's default 200 status. -/
def generate_tattoo (env : GenEnv)
    (callModel : List Content → Except String (List Part))
    (dir : List (List Char)) : Response × List (List Char) :=
  match genBody env callModel dir with
  | .ok r => r
  | .error e => (⟨200, .template (some e) none⟩, dir)

end Project

namespace Project

/-- Startup check of `GEMINI_API_KEY` at import time of src/project/main.py
(lines 16-18): `raise RuntimeError` when the variable is absent or
falsy. -/
def startup (key : Option String) : Except String String :=
  match key with
  | none => .error "GEMINI_API_KEY not set in .env"
  | some k =>
      if k.isEmpty then .error "GEMINI_API_KEY not set in .env" else .ok k

/-- The parsed JSON body of `POST /alter-tattoo`
(src/project/main.py lines 224-232): each field is `data.get(...)`. -/
structure AlterReq where
  feedback : Option String
  style : Option String
  theme : Option String
  color_mode : Option String
  size : Option String
  generated_image_base64 : Option (List Nat)

/-- The alteration prompt lines (src/project/main.py lines 255-287);
the `size` field is commented out in the source and does not appear. -/
def alterLines (style theme color_mode : Option String)
    (feedback : String) : List String :=
  let base := [
    "You are a professional tattoo designer.",
    "Your task is to modify an existing tattoo overlay according to the user's feedback.",
    "Ensure that the tattoo remains naturally blended on the skin, maintaining lighting and realism.",
    "Do not alter the person, body shape, skin tone, background, or environment — only the tattoo overlay itself.",
    "",
    "Input data:",
    "- Image: The previously generated tattoo overlay on the body (provided as input).",
    "- Original Image: The photo of the body part provided by the user prior to tattoo generation."]
  let withStyle := match style with
    | some s => if s.isEmpty then base else base ++ ["- Style: " ++ s]
    | none => base
  let withTheme := match theme with
    | some s => if s.isEmpty then withStyle else withStyle ++ ["- Theme: " ++ s]
    | none => withStyle
  let withColor := match color_mode with
    | some s => if s.isEmpty then withTheme else withTheme ++ ["- Color Mode: " ++ s]
    | none => withTheme
  withColor ++ ["",
    "User feedback (the requested changes):",
    "\"" ++ feedback ++ "\"",
    "",
    "Apply the feedback carefully to adjust or improve the tattoo while keeping it realistic.",
    "Return only the new tattoo overlay image that integrates naturally with the original photo.",
    "Do not include any text or description in the generated image."]

def alterPrompt (style theme color_mode : Option String)
    (feedback : String) : String :=
  String.intercalate "\n" (alterLines style theme color_mode feedback)

/-- Call of `base64.b64decode` as made by the alteration handler; the error
string stands for the raised `binascii.Error`'s message. -/
def b64decodePy (v : List Nat) : Except String (List Nat) :=
  match b64decode v with
  | some bs => .ok bs
  | none => .error "Invalid base64-encoded string"

/-- The decode stage of the alteration handler (src/project/main.py
lines 246-249): base64-decode, then open with PIL. -/
def alterDecode (v : List Nat) : Except String (List Nat) :=
  match b64decodePy v with
  | .error e => .error e
  | .ok bs => pilOpen bs

/-- Outcome of the alteration handler: a real response, or the
`JSONResponse` class object itself, which the outer `except` block
returns (src/project/main.py line 328). -/
inductive AlterOut where
  | resp (r : Response)
  | classObject
deriving DecidableEq

/-- Handler `POST /alter-tattoo` of src/project/main.py (lines 209-328).
A missing `feedback` or `generated_image_base64` makes the debug
`print` calls raise (`None[:100]`, `len(None)`), landing in the outer
`except`, as does an exception from the model call. -/
def alter_tattoo (req : AlterReq)
    (callModel : List Content → Except String (List Part)) : AlterOut :=
  match req.feedback, req.generated_image_base64 with
  | some fb, some gib =>
      (match alterDecode gib with
       | .error e =>
           .resp ⟨400, .json [("error", .str ("Invalid image data: " ++ e))]⟩
       | .ok prev =>
           match callModel
               [Content.text (alterPrompt req.style req.theme req.color_mode fb),
                Content.image prev] with
           | .error _ => .classObject
           | .ok parts =>
               let acc := parseParts parts
               match acc.image with
               | none =>
                   .resp ⟨500, .json
                     [("error", .str "No altered image returned by the model")]⟩
               | some img =>
                   .resp ⟨200, .json
                     [("idea", .str (if acc.text.isEmpty then
                         "Altered tattoo generated successfully." else acc.text)),
                      ("image_base64", .b64 img)]⟩)
  | _, _ => .classObject

end Project

/-- FastAPI's treatment of a handler outcome: a returned body becomes
a 200 response; an exception that escapes the handler becomes the
framework's plain 500 response, which carries no `error` field from
the handler. -/
def serve (r : Except String Body) : Response :=
  match r with
  | .ok b => ⟨200, b⟩
  | .error _ => ⟨500, .json [("detail", .str "Internal Server Error")]⟩

namespace Backend

/-- Startup call `genai.configure(api_key=os.getenv("GEMINI_API_KEY"))`
(src/backend/main.py line 22): the possibly-missing key is stored by
the external library without validation, and import completes either
way. -/
def startup (key : Option String) : Except String (Option String) := .ok key

/-- Inputs of one request to `POST /generate-tattoo/` of
src/backend/main.py. -/
structure GenEnv where
  photo : Except String (List Nat)
  style : String
  theme : String
  color_mode : String
  size : String

/-- The f-string prompt of src/backend/main.py (lines 38-43),
including its leading newline and indentation. -/
def prompt (style theme color_mode size : String) : String :=
  String.intercalate "\n" [
    "",
    "        You are a professional tattoo designer.",
    "        Design a " ++ color_mode ++ " " ++ style ++ " tattoo with the theme \"" ++ theme ++ "\".",
    "        It should be appropriate for a " ++ size ++ " placement.",
    "        Describe the final design clearly so it can be shown to the user.",
    "        "]

/-- The body of the `try` block of src/backend/main.py (lines 32-76);
`modelText` is the outcome of `model.generate_content(...)` followed
by the `response.text` accessor (either can raise). -/
def genBody (env : GenEnv) (modelText : Except String String) :
    Except String Body :=
  match env.photo with
  | .error e => .error e
  | .ok bs =>
    match pilOpen bs with
    | .error e => .error e
    | .ok _img =>
      match modelText with
      | .error e => .error e
      | .ok idea =>
        .ok (.json [("idea", .str idea), ("style", .str env.style),
                    ("theme", .str env.theme), ("color_mode", .str env.color_mode),
                    ("size", .str env.size)])

/-- Handler `POST /generate-tattoo/` of src/backend/main.py: every exception
is caught and returned as `{"error": str(e)}` (lines 78-79). -/
def generate_tattoo (env : GenEnv) (modelText : Except String String) :
    Response :=
  match genBody env modelText with
  | .ok b => ⟨200, b⟩
  | .error e => ⟨200, .json [("error", .str e)]⟩

end Backend

namespace Root

/-- Startup call `genai.configure(api_key=os.getenv("GEMINI_API_KEY"))`
(src/main.py line 18): no validation, import completes either way. -/
def startup (key : Option String) : Except String (Option String) := .ok key

/-- Inputs of one request to `POST /generate-tattoo/` of src/main.py. -/
structure GenEnv where
  photo : Except String (List Nat)
  style : String
  theme : String
  color_mode : String
  size : String

/-- The f-string prompt of src/main.py (lines 31-36). -/
def prompt (style theme color_mode size : String) : String :=
  String.intercalate "\n" [
    "",
    "    You are a professional tattoo designer.",
    "    Design a " ++ color_mode ++ " " ++ style ++ " tattoo with the theme \"" ++ theme ++ "\".",
    "    It should be appropriate for a " ++ size ++ " placement.",
    "    Describe the final design clearly so it can be shown to the user.",
    "    "]

/-- Handler `POST /generate-tattoo/` of src/main.py (lines 20-47): there is no
`try`/`except`, so any exception escapes the handler. -/
def generate_tattoo (env : GenEnv) (modelText : Except String String) :
    Except String Body :=
  match env.photo with
  | .error e => .error e
  | .ok bs =>
    match pilOpen bs with
    | .error e => .error e
    | .ok _img =>
      match modelText with
      | .error e => .error e
      | .ok idea =>
        .ok (.json [("idea", .str idea), ("style", .str env.style),
                    ("theme", .str env.theme), ("color_mode", .str env.color_mode),
                    ("size", .str env.size)])

end Root

/-! ## Spec-side restatements and response predicates -/

/-- Python truthiness of `getattr(part, "text", None)`. -/
def textTruthy (p : Part) : Bool :=
  match p.text with
  | some s => !s.isEmpty
  | none => false

/-- An image part in the sense of the spec's glossary: a response
fragment carrying raw image bytes rather than text. -/
def isImagePart (p : Part) : Bool := !textTruthy p && p.inline.isSome

/-- Restatement of C9 following the claim's words: all text parts
concatenated in response order. -/
def specText : List Part → String
  | [] => ""
  | p :: t => p.text.getD "" ++ specText t

/-- Restatement of C9 following the claim's words: among the image
parts, only the last one determines the returned image value. -/
def specImage (parts : List Part) : Option (List Nat) :=
  (parts.reverse.find? isImagePart).map
    (fun p => encodeImagePart (p.inline.getD []))

/-- Whether a response body reports an error to the caller. -/
def reportsError : Body → Bool
  | .json fields => fields.any (fun kv => kv.1 == "error")
  | .template e _ => e.isSome
  | .classObject => true


/-! ## Theorems -/

/-! ## Parts-loop lemmas (C8, C9) -/

lemma processInline_text (acc : AlterAcc) (o : Option (List Nat)) :
    (processInline acc o).text = acc.text := by
  cases o <;> rfl

lemma processPart_text (acc : AlterAcc) (p : Part) :
    (processPart acc p).text = acc.text ++ p.text.getD "" := by
  cases hp : p.text with
  | none => simp [processPart, hp, processInline_text]
  | some s =>
      by_cases hs : s.isEmpty
      · have hse : s = "" := (String.isEmpty_iff s).mp hs
        subst hse
        have h0 : "".isEmpty = true := rfl
        simp [processPart, hp, processInline_text, h0]
      · simp [processPart, hp, hs]

lemma processPart_image (acc : AlterAcc) (p : Part) :
    (processPart acc p).image =
      if isImagePart p then some (encodeImagePart (p.inline.getD []))
      else acc.image := by
  cases hp : p.text with
  | none =>
      cases ho : p.inline <;>
        simp [processPart, hp, processInline, isImagePart, textTruthy, ho]
  | some s =>
      by_cases hs : s.isEmpty
      · cases ho : p.inline <;>
          simp [processPart, hp, hs, processInline, isImagePart, textTruthy, ho]
      · simp [processPart, hp, hs, isImagePart, textTruthy]

lemma genProcessInline_text (acc : GenAcc) (o : Option (List Nat)) :
    (genProcessInline acc o).text = acc.text := by
  cases o with
  | none => rfl
  | some d => cases hop : pilOpen d <;> simp [genProcessInline, hop]

lemma genProcessInline_image (acc : GenAcc) (d : List Nat) :
    (genProcessInline acc (some d)).image = some (encodeImagePart d) := by
  cases hop : pilOpen d <;> simp [genProcessInline, encodeImagePart, hop]

lemma genProcessPart_text (acc : GenAcc) (p : Part) :
    (genProcessPart acc p).text = acc.text ++ p.text.getD "" := by
  cases hp : p.text with
  | none => simp [genProcessPart, hp, genProcessInline_text]
  | some s =>
      by_cases hs : s.isEmpty
      · have hse : s = "" := (String.isEmpty_iff s).mp hs
        subst hse
        have h0 : "".isEmpty = true := rfl
        simp [genProcessPart, hp, genProcessInline_text, h0]
      · simp [genProcessPart, hp, hs]

lemma genProcessPart_image (acc : GenAcc) (p : Part) :
    (genProcessPart acc p).image =
      if isImagePart p then some (encodeImagePart (p.inline.getD []))
      else acc.image := by
  cases hp : p.text with
  | none =>
      cases ho : p.inline with
      | none => simp [genProcessPart, hp, genProcessInline, isImagePart,
          textTruthy, ho]
      | some d => simp [genProcessPart, hp, genProcessInline_image,
          isImagePart, textTruthy, ho]
  | some s =>
      by_cases hs : s.isEmpty
      · cases ho : p.inline with
        | none => simp [genProcessPart, hp, hs, genProcessInline, isImagePart,
            textTruthy, ho]
        | some d => simp [genProcessPart, hp, hs, genProcessInline_image,
            isImagePart, textTruthy, ho]
      · simp [genProcessPart, hp, hs, isImagePart, textTruthy]

lemma specImage_cons (p : Part) (t : List Part) :
    specImage (p :: t) =
      (specImage t).or
        (if isImagePart p then some (encodeImagePart (p.inline.getD []))
         else none) := by
  simp only [specImage, List.reverse_cons, List.find?_append,
    List.find?_singleton]
  rw [Option.map_or']
  by_cases hip : isImagePart p <;> simp [hip]

lemma or_ite_image (a : Option (List Nat)) (c : Prop) [Decidable c]
    (e : List Nat) (b : Option (List Nat)) :
    (a.or (if c then some e else none)).or b =
      a.or (if c then some e else b) := by
  rw [Option.or_assoc]
  by_cases hc : c <;> simp [hc]

lemma foldl_processPart :
    ∀ (parts : List Part) (acc : AlterAcc),
      parts.foldl processPart acc =
        ⟨acc.text ++ specText parts, (specImage parts).or acc.image⟩
  | [], acc => by
      cases acc
      simp [specText, specImage]
  | p :: t, acc => by
      rw [List.foldl_cons, foldl_processPart t (processPart acc p)]
      rw [processPart_text, processPart_image, specImage_cons,
        String.append_assoc, or_ite_image]
      exact congrArg (fun z => AlterAcc.mk (acc.text ++ (p.text.getD "" ++ z))
        ((specImage t).or (if isImagePart p then
          some (encodeImagePart (p.inline.getD [])) else acc.image))) rfl

lemma foldl_genProcessPart :
    ∀ (parts : List Part) (acc : GenAcc),
      (parts.foldl genProcessPart acc).text = acc.text ++ specText parts ∧
      (parts.foldl genProcessPart acc).image = (specImage parts).or acc.image
  | [], acc => by
      simp [specText, specImage]
  | p :: t, acc => by
      rw [List.foldl_cons]
      obtain ⟨ht, hi⟩ := foldl_genProcessPart t (genProcessPart acc p)
      constructor
      · rw [ht, genProcessPart_text, String.append_assoc]
        rfl
      · rw [hi, genProcessPart_image, specImage_cons, or_ite_image]

lemma b64encode_cons3 (a b c : Nat) (rest : List Nat) :
    b64encode (a :: b :: c :: rest) =
      a / 4 :: (a % 4 * 16 + b / 16) :: (b % 16 * 4 + c / 64) :: c % 64 ::
        b64encode rest := by
  cases rest <;> rfl

lemma b64decode_cons4 (s1 s2 s3 s4 : Nat) (rest : List Nat) :
    b64decode (s1 :: s2 :: s3 :: s4 :: rest) =
      if s3 = 64 then
        if s4 = 64 ∧ rest = [] then some [s1 * 4 + s2 / 16] else none
      else if s4 = 64 then
        if rest = [] then some [s1 * 4 + s2 / 16, s2 % 16 * 16 + s3 / 4]
        else none
      else
        (b64decode rest).map
          (fun t => (s1 * 4 + s2 / 16) :: (s2 % 16 * 16 + s3 / 4) ::
            (s3 % 4 * 64 + s4) :: t) := rfl

theorem b64decode_b64encode :
    ∀ bs : List Nat, validBytes bs = true → b64decode (b64encode bs) = some bs
  | [], _ => rfl
  | [a], _ => by
      show b64decode [a / 4, a % 4 * 16, 64, 64] = some [a]
      rw [b64decode_cons4, if_pos rfl, if_pos ⟨rfl, rfl⟩]
      refine congrArg some ?_
      refine List.cons_eq_cons.mpr ⟨by omega, rfl⟩
  | [a, b], h => by
      have hb : b < 256 := by
        simp only [validBytes, List.all_cons, Bool.and_eq_true,
          decide_eq_true_eq] at h
        exact h.2.1
      show b64decode [a / 4, a % 4 * 16 + b / 16, b % 16 * 4, 64] = some [a, b]
      rw [b64decode_cons4, if_neg (by omega), if_pos rfl, if_pos rfl]
      refine congrArg some ?_
      refine List.cons_eq_cons.mpr ⟨by omega, ?_⟩
      refine List.cons_eq_cons.mpr ⟨by omega, rfl⟩
  | a :: b :: c :: rest, h => by
      simp only [validBytes, List.all_cons, Bool.and_eq_true,
        decide_eq_true_eq] at h
      obtain ⟨-, hb, hc, hrest⟩ := h
      have ih := b64decode_b64encode rest hrest
      rw [b64encode_cons3, b64decode_cons4, if_neg (by omega),
        if_neg (by omega), ih]
      simp only [Option.map_some']
      refine congrArg some ?_
      refine List.cons_eq_cons.mpr ⟨by omega, ?_⟩
      refine List.cons_eq_cons.mpr ⟨by omega, ?_⟩
      refine List.cons_eq_cons.mpr ⟨by omega, rfl⟩

theorem pilOpen_pilSavePng (img : List Nat) (h : validBytes img = true) :
    pilOpen (pilSavePng img) = .ok img := by
  have hsig : validBytes pngSig = true := by decide
  have hv : validBytes (pngSig ++ img) = true := by
    simp only [validBytes, List.all_append, Bool.and_eq_true] at *
    exact ⟨hsig, h⟩
  have htake : (pngSig ++ img).take 4 = pngSig := List.take_left pngSig img
  have hdrop : (pngSig ++ img).drop 4 = img := List.drop_left pngSig img
  simp [pilOpen, pilSavePng, htake, hv, hdrop]

theorem pilOpen_valid {bs img : List Nat} (h : pilOpen bs = .ok img) :
    validBytes img = true := by
  simp only [pilOpen] at h
  by_cases hc : bs.take 4 = pngSig ∧ validBytes bs = true
  · rw [if_pos hc] at h
    cases h
    have := hc.2
    simp only [validBytes, List.all_eq_true] at this ⊢
    exact fun b hb => this b (List.mem_of_mem_drop hb)
  · rw [if_neg hc] at h
    cases h

-- digit facts
lemma digitChar_spec {d : Nat} (hd : d < 10) :
    (digitChar d).isDigit = true ∧ Char.toLower (digitChar d) = digitChar d ∧
      charVal (digitChar d) = d := by
  interval_cases d <;> exact ⟨by decide, by decide, by decide⟩

lemma natChars_all_digits (n : Nat) : (natChars n).all Char.isDigit = true := by
  simp only [natChars, List.all_eq_true, List.mem_reverse, List.mem_map]
  rintro c ⟨d, hd, rfl⟩
  exact (digitChar_spec (Nat.digits_lt_base (by norm_num) hd)).1

lemma natChars_ne_nil {n : Nat} (hn : n ≠ 0) : (natChars n).isEmpty = false := by
  simp only [natChars, List.isEmpty_eq_false, ne_eq, List.reverse_eq_nil_iff,
    List.map_eq_nil_iff]
  exact Nat.digits_ne_nil_iff_ne_zero.mpr hn

lemma parseDigits_natChars (n : Nat) : parseDigits (natChars n) = n := by
  have h1 : ((natChars n).map charVal).reverse = Nat.digits 10 n := by
    simp only [natChars, List.map_reverse, List.reverse_reverse, List.map_map]
    rw [List.map_congr_left, List.map_id]
    intro d hd
    exact (digitChar_spec (Nat.digits_lt_base (by norm_num) hd)).2.2
  rw [parseDigits, h1, Nat.ofDigits_digits]

lemma natChars_length_pos {n : Nat} (hn : n ≠ 0) : 0 < (natChars n).length := by
  have := natChars_ne_nil hn
  cases h : natChars n with
  | nil => rw [h] at this; simp at this
  | cons a t => simp [h]

lemma fnHead_length : fnHead.length = 15 := by decide

lemma fnTail_length : fnTail.length = 4 := by decide

lemma midChars_mkFileName (i : Nat) : midChars (mkFileName i) = natChars i := by
  have hdrop : (mkFileName i).drop 15 = natChars i ++ fnTail := by
    rw [mkFileName, List.append_assoc, ← fnHead_length, List.drop_left]
  rw [midChars, hdrop]
  have : (natChars i ++ fnTail).length - 4 = (natChars i).length := by
    simp [List.length_append, fnTail_length]
  rw [this, List.take_left]

lemma isGenName_mkFileName (i : Nat) : isGenName (mkFileName i) = true := by
  have h1 : (mkFileName i).take 15 = fnHead := by
    rw [mkFileName, List.append_assoc, ← fnHead_length, List.take_left]
  have h2 : ((mkFileName i).map Char.toLower).reverse.take 4 = fnTail.reverse := by
    have hmap : (mkFileName i).map Char.toLower =
        (fnHead.map Char.toLower) ++ ((natChars i).map Char.toLower) ++ fnTail := by
      have htail : fnTail.map Char.toLower = fnTail := by decide
      rw [mkFileName, List.map_append, List.map_append, htail]
    rw [hmap, List.reverse_append]
    have : fnTail.reverse.length = 4 := by decide
    rw [← this, List.take_left]
  simp [isGenName, h1, h2]

lemma fileIdx_mkFileName {i : Nat} (hi : i ≠ 0) : fileIdx (mkFileName i) = some i := by
  rw [fileIdx, if_pos (isGenName_mkFileName i)]
  simp only [midChars_mkFileName]
  rw [if_pos]
  · rw [parseDigits_natChars]
  · simp [natChars_ne_nil hi, natChars_all_digits]

-- fold facts
lemma maxIdx_append_one (files : List (List Char)) {i : Nat} (hi : i ≠ 0) :
    maxIdx (files ++ [mkFileName i]) =
      if i > maxIdx files then i else maxIdx files := by
  rw [maxIdx, List.foldl_append]
  simp only [List.foldl_cons, List.foldl_nil, fileIdx_mkFileName hi]
  rfl

lemma maxIdx_genIter (n : Nat) : maxIdx (genIter n) = n ∧
    genIter n = (List.range' 1 n).map mkFileName := by
  induction n with
  | zero => exact ⟨rfl, rfl⟩
  | succ n ih =>
    have hstep : genIter (n + 1) = genIter n ++ [mkFileName (n + 1)] := by
      show genStep (genIter n) = _
      rw [genStep, nextIdx, ih.1]
    constructor
    · rw [hstep, maxIdx_append_one _ (Nat.succ_ne_zero n), ih.1]
      simp
    · rw [hstep, ih.2, List.range'_concat]
      simp [Nat.add_comm 1 n]

theorem nextIdx_eq_max_plus_one (files : List (List Char)) :
    nextIdx files = 1 + maxNumericSuffix files := by
  rw [nextIdx, maxNumericSuffix]
  have key : ∀ (l : List (List Char)) (m : Nat),
      l.foldl (fun m fn => match fileIdx fn with
        | some i => if i > m then i else m
        | none => m) m = max m ((l.filterMap fileIdx).foldr max 0) := by
    intro l
    induction l with
    | nil => intro m; simp
    | cons f t ih =>
      intro m
      simp only [List.foldl_cons, List.filterMap_cons]
      cases h : fileIdx f with
      | none => rw [ih]
      | some i =>
        simp only [List.foldr_cons]
        rw [ih]
        generalize (t.filterMap fileIdx).foldr max 0 = w
        by_cases hc : i > m
        · rw [if_pos hc]; omega
        · rw [if_neg hc]; omega
  rw [maxIdx, key]
  omega

/-- C1: the next index is one plus the maximum numeric suffix among
existing files named `generated_image<digits>.png` (non-numeric
suffixes ignored; the empty directory yields index 1), and iterating
the write step from an empty directory N times yields exactly the N
files `generated_image1.png` .. `generated_imageN.png`. -/
theorem c1_filename_counter :
    (∀ files, nextIdx files = 1 + maxNumericSuffix files) ∧
    nextIdx [] = 1 ∧
    (∀ n, genIter n = (List.range' 1 n).map mkFileName) ∧
    (∀ n, (genIter n).length = n) :=
  ⟨nextIdx_eq_max_plus_one, rfl, fun n => (maxIdx_genIter n).2,
   fun n => by rw [(maxIdx_genIter n).2]; simp⟩

/-- C9: processing the parts of a model response concatenates all text
parts in response order, and among multiple image parts only the last
one determines the returned image value, in both the generate and the
alteration handlers. -/
theorem c9_parts_fold (parts : List Part) :
    (parseParts parts).text = specText parts ∧
    (parseParts parts).image = specImage parts ∧
    ∀ dir, (genParseParts dir parts).text = specText parts ∧
      (genParseParts dir parts).image = specImage parts := by
  have h1 := foldl_processPart parts ⟨"", none⟩
  refine ⟨?_, ?_, fun dir => ?_⟩
  · rw [parseParts, h1]
    exact String.empty_append _
  · rw [parseParts, h1]
    exact Option.or_none
  · obtain ⟨ht, hi⟩ := foldl_genProcessPart parts ⟨"", none, dir⟩
    rw [genParseParts] at *
    exact ⟨ht, by rw [hi]; exact Option.or_none⟩

/-- C8: for an image part whose bytes PIL cannot decode, the handlers
do not raise; they base64-encode the raw bytes unchanged as the
returned image, in the alteration and the generate loop alike. -/
theorem c8_raw_fallback :
    (∀ (acc : AlterAcc) (d : List Nat) (e : String), pilOpen d = .error e →
      processInline acc (some d) = { acc with image := some (b64encode d) }) ∧
    (∀ (acc : GenAcc) (d : List Nat) (e : String), pilOpen d = .error e →
      genProcessInline acc (some d) = { acc with image := some (b64encode d) }) := by
  constructor
  · intro acc d e h
    simp [processInline, encodeImagePart, h]
  · intro acc d e h
    simp [genProcessInline, h]

/-- Witness for C8 at the undecodable byte string `[1, 2, 3]`. -/
theorem c8_witness :
    processInline ⟨"", none⟩ (some [1, 2, 3]) =
      ⟨"", some (b64encode [1, 2, 3])⟩ ∧
    genProcessInline ⟨"", none, []⟩ (some [1, 2, 3]) =
      ⟨"", some (b64encode [1, 2, 3]), []⟩ :=
  ⟨c8_raw_fallback.1 ⟨"", none⟩ [1, 2, 3] "cannot identify image file" rfl,
   c8_raw_fallback.2 ⟨"", none, []⟩ [1, 2, 3] "cannot identify image file" rfl⟩

/-- C5 (amended): only the src/project variant requires
`GEMINI_API_KEY` at startup, raising when it is absent or empty; the
backend and root variants pass the unchecked value to the client
library and their startup completes either way. -/
theorem c5_amended :
    Project.startup none = .error "GEMINI_API_KEY not set in .env" ∧
    Project.startup (some "") = .error "GEMINI_API_KEY not set in .env" ∧
    (∀ k : String, k.isEmpty = false → Project.startup (some k) = .ok k) ∧
    (∀ k, Backend.startup k = .ok k) ∧
    (∀ k, Root.startup k = .ok k) := by
  refine ⟨rfl, rfl, ?_, fun k => rfl, fun k => rfl⟩
  intro k hk
  simp [Project.startup, hk]

/-- Counterexample to C5 as stated: with `GEMINI_API_KEY` absent, the
backend and root variants start without failing. -/
theorem c5_counterexample :
    Backend.startup none = .ok none ∧ Root.startup none = .ok none ∧
    Project.startup none = .error "GEMINI_API_KEY not set in .env" :=
  ⟨rfl, rfl, rfl⟩

/-- Witness for C5 (amended) at a concrete non-empty key. -/
theorem c5_witness : Project.startup (some "key") = .ok "key" :=
  c5_amended.2.2.1 "key" rfl

/-- C7: the alteration endpoint departs from the always-200 policy:
an input image that fails to decode yields a 400 response with an
`error` field, and a model response without an image part yields a 500
response with an `error` field. -/
theorem c7_alter_status_codes :
    (∀ (req : Project.AlterReq)
        (cm : List Content → Except String (List Part))
        (fb : String) (gib : List Nat) (e : String),
        req.feedback = some fb → req.generated_image_base64 = some gib →
        Project.alterDecode gib = .error e →
        Project.alter_tattoo req cm = .resp ⟨400, .json
          [("error", .str ("Invalid image data: " ++ e))]⟩) ∧
    (∀ (req : Project.AlterReq)
        (cm : List Content → Except String (List Part))
        (fb : String) (gib prev : List Nat) (parts : List Part),
        req.feedback = some fb → req.generated_image_base64 = some gib →
        Project.alterDecode gib = .ok prev →
        cm [Content.text (Project.alterPrompt req.style req.theme
              req.color_mode fb), Content.image prev] = .ok parts →
        (parseParts parts).image = none →
        Project.alter_tattoo req cm = .resp ⟨500, .json
          [("error", .str "No altered image returned by the model")]⟩) := by
  constructor
  · intro req cm fb gib e h1 h2 h3
    simp [Project.alter_tattoo, h1, h2, h3]
  · intro req cm fb gib prev parts h1 h2 h3 h4 h5
    simp [Project.alter_tattoo, h1, h2, h3, h4, h5]

/-- Witness for C7: a non-base64 input yields the 400 response; a
valid input with a partless model response yields the 500 response. -/
theorem c7_witness :
    Project.alter_tattoo ⟨some "f", none, none, none, none, some [99]⟩
        (fun _ => .ok []) =
      .resp ⟨400, .json [("error",
        .str ("Invalid image data: " ++ "Invalid base64-encoded string"))]⟩ ∧
    Project.alter_tattoo ⟨some "f", none, none, none, none,
        some (b64encode (pilSavePng [5]))⟩ (fun _ => .ok []) =
      .resp ⟨500, .json
        [("error", .str "No altered image returned by the model")]⟩ :=
  ⟨c7_alter_status_codes.1 _ _ "f" [99] "Invalid base64-encoded string"
      rfl rfl rfl,
   c7_alter_status_codes.2 _ _ "f" (b64encode (pilSavePng [5])) [5] []
      rfl rfl rfl rfl rfl⟩

/-! ## Response-shape lemmas for the generate handlers -/

lemma genBody_cases {env : Project.GenEnv}
    {cm : List Content → Except String (List Part)}
    {dir : List (List Char)} {r : Response × List (List Char)}
    (h : Project.genBody env cm dir = .ok r) :
    (wantsJson env.accept = true →
      ∃ t i, r.1 = ⟨200, .json [("generated_text", .str t),
        ("image_base64", i)]⟩) ∧
    (wantsJson env.accept = false →
      ∃ u g, r.1 = ⟨200, .template none (some [
        ("uploaded_image_base64", u), ("generated_image_base64", g),
        ("style", .str env.style), ("theme", .str env.theme),
        ("color_mode", .str env.color_mode),
        ("size", .str env.physical_attributes)])⟩) := by
  unfold Project.genBody at h
  cases hph : env.photo with
  | error e => simp [hph] at h
  | ok imageBytes =>
    simp only [hph] at h
    cases hpo : pilOpen imageBytes with
    | error e => simp [hpo] at h
    | ok userImage =>
      simp only [hpo] at h
      cases hcm : cm (Project.genContents env userImage) with
      | error e => simp [hcm] at h
      | ok parts =>
        simp only [hcm] at h
        cases hw : wantsJson env.accept with
        | true =>
          rw [if_pos (by rw [hw])] at h
          cases h
          exact ⟨fun _ => ⟨_, _, rfl⟩, fun hw2 => absurd hw2 (by decide)⟩
        | false =>
          rw [if_neg (by rw [hw]; exact Bool.false_ne_true)] at h
          cases h
          exact ⟨fun hw2 => absurd hw2 (by decide), fun _ => ⟨_, _, rfl⟩⟩

lemma backendBody_ok {env : Backend.GenEnv} {mt : Except String String}
    {b : Body} (h : Backend.genBody env mt = .ok b) :
    ∃ idea, b = .json [("idea", .str idea), ("style", .str env.style),
      ("theme", .str env.theme), ("color_mode", .str env.color_mode),
      ("size", .str env.size)] := by
  unfold Backend.genBody at h
  cases hph : env.photo with
  | error e => simp [hph] at h
  | ok bs =>
    simp only [hph] at h
    cases hpo : pilOpen bs with
    | error e => simp [hpo] at h
    | ok img =>
      simp only [hpo] at h
      cases hmt : mt with
      | error e => simp [hmt] at h
      | ok idea =>
        simp only [hmt] at h
        cases h
        exact ⟨idea, rfl⟩

/-- C2 (amended): for the src/project and src/backend generate
endpoints, every exception raised in the handler body is caught and
surfaced as an error field in a 200 response; the src/main.py variant
is exempt, having no handler (see the counterexample). -/
theorem c2_amended :
    (∀ (env : Project.GenEnv) (cm : List Content → Except String (List Part))
        (dir : List (List Char)),
        (Project.generate_tattoo env cm dir).1.status = 200) ∧
    (∀ (env : Project.GenEnv) (cm : List Content → Except String (List Part))
        (dir : List (List Char)) (e : String),
        Project.genBody env cm dir = .error e →
        Project.generate_tattoo env cm dir =
          (⟨200, .template (some e) none⟩, dir)) ∧
    (∀ (env : Backend.GenEnv) (mt : Except String String),
        (Backend.generate_tattoo env mt).status = 200) ∧
    (∀ (env : Backend.GenEnv) (mt : Except String String) (e : String),
        Backend.genBody env mt = .error e →
        Backend.generate_tattoo env mt =
          ⟨200, .json [("error", .str e)]⟩) := by
  refine ⟨?_, ?_, ?_, ?_⟩
  · intro env cm dir
    cases h : Project.genBody env cm dir with
    | error e => simp [Project.generate_tattoo, h]
    | ok r =>
      have hc := genBody_cases h
      cases hw : wantsJson env.accept with
      | true =>
        obtain ⟨t, i, hr⟩ := hc.1 hw
        simp [Project.generate_tattoo, h, hr]
      | false =>
        obtain ⟨u, g, hr⟩ := hc.2 hw
        simp [Project.generate_tattoo, h, hr]
  · intro env cm dir e h
    simp [Project.generate_tattoo, h]
  · intro env mt
    cases h : Backend.genBody env mt with
    | error e => simp [Backend.generate_tattoo, h]
    | ok b => simp [Backend.generate_tattoo, h]
  · intro env mt e h
    simp [Backend.generate_tattoo, h]

/-- Counterexample to C2 as stated: the src/main.py generate endpoint
has no exception handler, so a bad image makes the exception escape
and the framework answers with a plain 500 carrying no error field. -/
theorem c2_counterexample :
    Root.generate_tattoo ⟨.ok [1, 2, 3], "s", "t", "c", "z"⟩ (.ok "idea") =
      .error "cannot identify image file" ∧
    serve (Root.generate_tattoo ⟨.ok [1, 2, 3], "s", "t", "c", "z"⟩
        (.ok "idea")) =
      ⟨500, .json [("detail", .str "Internal Server Error")]⟩ :=
  ⟨rfl, rfl⟩

/-- Witness for C2 (amended) at a failing photo read. -/
theorem c2_witness :
    Project.generate_tattoo ⟨.error "boom", none, "s", "t", "c", "p", "a"⟩
        (fun _ => .ok []) [] = (⟨200, .template (some "boom") none⟩, []) ∧
    Backend.generate_tattoo ⟨.error "boom", "s", "t", "c", "z"⟩ (.ok "i") =
      ⟨200, .json [("error", .str "boom")]⟩ :=
  ⟨c2_amended.2.1 _ _ _ "boom" rfl, c2_amended.2.2.2 _ _ "boom" rfl⟩

/-- C3 (amended): the project variant's JSON response carries either
an error or both `generated_text` and `image_base64`; the backend
variant's response carries either an error or `idea` with the echoed
fields, but never an image key. -/
theorem c3_amended :
    (∀ (env : Project.GenEnv) (cm : List Content → Except String (List Part))
        (dir : List (List Char)), wantsJson env.accept = true →
        (∃ e, Project.generate_tattoo env cm dir =
          (⟨200, .template (some e) none⟩, dir)) ∨
        (∃ t i d2, Project.generate_tattoo env cm dir =
          (⟨200, .json [("generated_text", .str t), ("image_base64", i)]⟩,
            d2))) ∧
    (∀ (env : Backend.GenEnv) (mt : Except String String),
        (∃ e, Backend.generate_tattoo env mt =
          ⟨200, .json [("error", .str e)]⟩) ∨
        (∃ idea, Backend.generate_tattoo env mt = ⟨200, .json
          [("idea", .str idea), ("style", .str env.style),
           ("theme", .str env.theme), ("color_mode", .str env.color_mode),
           ("size", .str env.size)]⟩)) := by
  constructor
  · intro env cm dir hw
    cases h : Project.genBody env cm dir with
    | error e =>
      exact Or.inl ⟨e, by simp [Project.generate_tattoo, h]⟩
    | ok r =>
      obtain ⟨t, i, hr⟩ := (genBody_cases h).1 hw
      refine Or.inr ⟨t, i, r.2, ?_⟩
      have hg : Project.generate_tattoo env cm dir = r := by
        simp [Project.generate_tattoo, h]
      rw [hg, ← hr]
  · intro env mt
    cases h : Backend.genBody env mt with
    | error e =>
      exact Or.inl ⟨e, by simp [Backend.generate_tattoo, h]⟩
    | ok b =>
      obtain ⟨idea, hb⟩ := backendBody_ok h
      exact Or.inr ⟨idea, by simp [Backend.generate_tattoo, h, hb]⟩

/-- Counterexample to C3 as stated: a successful backend response has
an `idea` key but no `image_base64` key (and no `error` key). -/
theorem c3_counterexample :
    Backend.generate_tattoo ⟨.ok (pilSavePng [7]), "s", "t", "c", "z"⟩
        (.ok "an idea") =
      ⟨200, .json [("idea", .str "an idea"), ("style", .str "s"),
        ("theme", .str "t"), ("color_mode", .str "c"),
        ("size", .str "z")]⟩ ∧
    (([("idea", JVal.str "an idea"), ("style", JVal.str "s"),
       ("theme", JVal.str "t"), ("color_mode", JVal.str "c"),
       ("size", JVal.str "z")].map Prod.fst).contains "image_base64"
      = false) ∧
    (([("idea", JVal.str "an idea"), ("style", JVal.str "s"),
       ("theme", JVal.str "t"), ("color_mode", JVal.str "c"),
       ("size", JVal.str "z")].map Prod.fst).contains "error" = false) :=
  ⟨rfl, rfl, rfl⟩

/-- Witness for C3 (amended) at a valid image and all fields. -/
theorem c3_witness :
    (∃ e, Project.generate_tattoo ⟨.ok (pilSavePng [7]), none, "s", "t",
        "c", "z", "application/json"⟩ (fun _ => .ok []) [] =
      (⟨200, .template (some e) none⟩, [])) ∨
    (∃ t i d2, Project.generate_tattoo ⟨.ok (pilSavePng [7]), none, "s",
        "t", "c", "z", "application/json"⟩ (fun _ => .ok []) [] =
      (⟨200, .json [("generated_text", .str t), ("image_base64", i)]⟩,
        d2)) :=
  c3_amended.1 _ _ _ rfl

/-- C6 (amended): on a successful generate request the Accept header
chooses the format: a JSON payload with exactly `generated_text` and
`image_base64`, or the HTML template with the images and form fields,
but without the generated text. -/
theorem c6_amended :
    ∀ (env : Project.GenEnv) (cm : List Content → Except String (List Part))
      (dir : List (List Char)) (r : Response) (d2 : List (List Char)),
      Project.genBody env cm dir = .ok (r, d2) →
      Project.generate_tattoo env cm dir = (r, d2) ∧
      (wantsJson env.accept = true →
        ∃ t i, r = ⟨200, .json [("generated_text", .str t),
          ("image_base64", i)]⟩) ∧
      (wantsJson env.accept = false →
        ∃ u g, r = ⟨200, .template none (some [
          ("uploaded_image_base64", u), ("generated_image_base64", g),
          ("style", .str env.style), ("theme", .str env.theme),
          ("color_mode", .str env.color_mode),
          ("size", .str env.physical_attributes)])⟩) := by
  intro env cm dir r d2 h
  exact ⟨by simp [Project.generate_tattoo, h], (genBody_cases h).1,
    (genBody_cases h).2⟩

/-- Counterexample to C6's "same data" half: a successful HTML render
whose model response carried the text "hello" has no `generated_text`
key and no value equal to that text in the template context. -/
theorem c6_counterexample :
    (Project.generate_tattoo ⟨.ok (pilSavePng [7]), none, "s", "t", "c",
        "z", "text/html"⟩
        (fun _ => .ok [⟨some "hello", none⟩, ⟨none, some (pilSavePng [9])⟩])
        []).1.body =
      .template none (some [
        ("uploaded_image_base64", .b64 (b64encode (pilSavePng [7]))),
        ("generated_image_base64", .b64 (b64encode (pilSavePng [9]))),
        ("style", .str "s"), ("theme", .str "t"),
        ("color_mode", .str "c"), ("size", .str "z")]) ∧
    (([("uploaded_image_base64", JVal.b64 (b64encode (pilSavePng [7]))),
       ("generated_image_base64", JVal.b64 (b64encode (pilSavePng [9]))),
       ("style", JVal.str "s"), ("theme", JVal.str "t"),
       ("color_mode", JVal.str "c"), ("size", JVal.str "z")].map
        Prod.fst).contains "generated_text" = false) ∧
    (([("uploaded_image_base64", JVal.b64 (b64encode (pilSavePng [7]))),
       ("generated_image_base64", JVal.b64 (b64encode (pilSavePng [9]))),
       ("style", JVal.str "s"), ("theme", JVal.str "t"),
       ("color_mode", JVal.str "c"), ("size", JVal.str "z")].map
        Prod.snd).contains (JVal.str "hello") = false) :=
  ⟨rfl, rfl, rfl⟩

/-- Witness for C6 (amended) at a JSON-accepting request. -/
theorem c6_witness :
    Project.generate_tattoo ⟨.ok (pilSavePng [7]), none, "s", "t", "c",
        "z", "application/json"⟩ (fun _ => .ok []) [] =
      (⟨200, .json [("generated_text", .str ""), ("image_base64", .null)]⟩,
        []) ∧
    ∃ t i, (⟨200, .json [("generated_text", .str ""),
        ("image_base64", .null)]⟩ : Response) =
      ⟨200, .json [("generated_text", .str t), ("image_base64", i)]⟩ := by
  have h := c6_amended ⟨.ok (pilSavePng [7]), none, "s", "t", "c", "z",
    "application/json"⟩ (fun _ => .ok [])
    [] ⟨200, .json [("generated_text", .str ""), ("image_base64", .null)]⟩
    [] rfl
  exact ⟨h.1, h.2.1 rfl⟩

/-- C4 (amended): image values produced by the successful
decode-and-re-encode path round-trip: base64 decoding and PIL open
both succeed at the alteration endpoint's decode stage; values from
the raw-bytes fallback decode as base64 but fail the PIL open (see
the counterexample). -/
theorem c4_amended :
    ∀ (d g : List Nat), pilOpen d = .ok g →
      (∀ acc : AlterAcc, processInline acc (some d) =
        { acc with image := some (b64encode (pilSavePng g)) }) ∧
      Project.alterDecode (b64encode (pilSavePng g)) = .ok g := by
  intro d g h
  have hvg : validBytes g = true := pilOpen_valid h
  have hvp : validBytes (pilSavePng g) = true := by
    simp only [pilSavePng, validBytes, List.all_append, Bool.and_eq_true]
    exact ⟨by decide, hvg⟩
  constructor
  · intro acc
    simp [processInline, encodeImagePart, h]
  · have hd : Project.b64decodePy (b64encode (pilSavePng g)) =
        .ok (pilSavePng g) := by
      simp [Project.b64decodePy, b64decode_b64encode _ hvp]
    simp [Project.alterDecode, hd, pilOpen_pilSavePng g hvg]

/-- Counterexample to C4 as stated: when the model part's bytes fail
to decode, the generate endpoint forwards them base64-encoded, and
feeding that value back to the alteration endpoint fails the PIL open
and is answered 400. -/
theorem c4_counterexample :
    (Project.generate_tattoo ⟨.ok (pilSavePng [7]), none, "s", "t", "c",
        "z", "application/json"⟩ (fun _ => .ok [⟨none, some [1, 2, 3]⟩])
        []).1 =
      ⟨200, .json [("generated_text", .str ""),
        ("image_base64", .b64 (b64encode [1, 2, 3]))]⟩ ∧
    Project.alter_tattoo ⟨some "fb", none, none, none, none,
        some (b64encode [1, 2, 3])⟩ (fun _ => .ok []) =
      .resp ⟨400, .json [("error",
        .str "Invalid image data: cannot identify image file")]⟩ :=
  ⟨rfl, rfl⟩

/-- Witness for C4 (amended) at the image payload `[5]`. -/
theorem c4_witness :
    processInline ⟨"", none⟩ (some (pilSavePng [5])) =
      ⟨"", some (b64encode (pilSavePng [5]))⟩ ∧
    Project.alterDecode (b64encode (pilSavePng [5])) = .ok [5] := by
  have h := c4_amended (pilSavePng [5]) [5] rfl
  exact ⟨h.1 ⟨"", none⟩, h.2⟩

/-- C10: when a reference upload is present but its read or decode
fails, the generate endpoint silently drops it: the model is called
with only the prompt and the main photo, the request succeeds with
status 200, and no error is reported. -/
theorem c10_ref_failure_ignored :
    ∀ (env : Project.GenEnv) (cm : List Content → Except String (List Part))
      (dir : List (List Char)),
      env.reference.isSome = true → Project.refContent env.reference = [] →
      ∀ (bs img : List Nat) (parts : List Part),
        env.photo = .ok bs → pilOpen bs = .ok img →
        cm [Content.text (Project.buildPrompt true env.style env.theme
              env.color_mode env.physical_attributes),
            Content.image img] = .ok parts →
        Project.genContents env img =
          [Content.text (Project.buildPrompt true env.style env.theme
              env.color_mode env.physical_attributes),
           Content.image img] ∧
        ∃ r d2, Project.generate_tattoo env cm dir = (r, d2) ∧
          r.status = 200 ∧ reportsError r.body = false := by
  intro env cm dir hrs hrc bs img parts hph hpo hcm
  have hc : Project.genContents env img =
      [Content.text (Project.buildPrompt true env.style env.theme
          env.color_mode env.physical_attributes), Content.image img] := by
    simp [Project.genContents, hrs, hrc]
  refine ⟨hc, ?_⟩
  simp only [Project.generate_tattoo, Project.genBody, hph, hpo, hc, hcm]
  by_cases hw : wantsJson env.accept
  · rw [if_pos hw]
    exact ⟨_, _, rfl, rfl, rfl⟩
  · rw [if_neg hw]
    exact ⟨_, _, rfl, rfl, rfl⟩

/-- Witness for C10 at a reference whose read raised. -/
theorem c10_witness :
    Project.genContents ⟨.ok (pilSavePng [7]), some (.error "refboom"),
        "s", "t", "c", "z", "application/json"⟩ [7] =
      [Content.text (Project.buildPrompt true "s" "t" "c" "z"),
       Content.image [7]] ∧
    ∃ r d2, Project.generate_tattoo ⟨.ok (pilSavePng [7]),
        some (.error "refboom"), "s", "t", "c", "z", "application/json"⟩
        (fun _ => .ok []) [] = (r, d2) ∧
      r.status = 200 ∧ reportsError r.body = false :=
  c10_ref_failure_ignored
    ⟨.ok (pilSavePng [7]), some (.error "refboom"), "s", "t", "c", "z",
      "application/json"⟩
    (fun _ => .ok []) [] rfl rfl (pilSavePng [7]) [7] [] rfl rfl rfl

end Tattoo
